import Mathlib

/-!
Shallow embedding of the MyAnimeList MCP server (Python, httpx + pydantic)
for verification of its specification.

The source files embedded here are `src/tools/anime_related_tools.py`,
`src/tools/manga_related_tools.py`, `src/models/anime_models.py` and
`src/models/manga_models.py`.  Each tool follows the same template:
build query params from a pydantic parameter model (`model_dump` with
`exclude_none=True`), issue one GET, `raise_for_status`, decode JSON,
extract the envelope's `data` field, check its shape, and map each raw
record into a pydantic response model using `dict.get` with literal
defaults.

Conventions of the embedding:
* JSON values are the inductive `JSON`; JSON numbers are modelled as `Int`
  (no claim under verification involves a fractional value, and the float
  default `0.0` is the number `0`).
* Python exceptions raised while handling a response are `PyErr`
  (`AttributeError` from calling `.get` on a non-dict, `TypeError` from
  iterating a non-iterable, pydantic's `ValidationError`).
* A pydantic model constructor is modelled as a function from a keyword
  list (`Kwargs`) to `Except PyErr` of the record: for each declared field
  the keyword of the same name is looked up — missing keyword means the
  declared default, a present keyword is validated against the declared
  `Optional[...]` type.  Keywords that match no field are ignored, which
  is pydantic's default `extra='ignore'` behaviour.  Pydantic's lax
  string-to-number coercions are not modelled; no claim exercises them.
* The HTTP layer is abstracted to the response: status code plus decoded
  body (`none` when the body is not valid JSON).  Each tool's behaviour
  from `raise_for_status` onward is the function `<tool>_handle`.
-/

inductive JSON where
  | null : JSON
  | bool (b : Bool) : JSON
  | num (n : Int) : JSON
  | str (s : String) : JSON
  | arr (items : List JSON) : JSON
  | obj (fields : List (String × JSON)) : JSON

/-- Python exceptions that the mapping code can raise. -/
inductive PyErr where
  | attributeError : PyErr
  | typeError : PyErr
  | validationError : PyErr
deriving Repr, DecidableEq

/-- Keyword arguments of a pydantic model constructor / a raw JSON object's
fields / an outgoing query-parameter mapping. -/
abbrev Kwargs := List (String × JSON)

/-- First-match association-list lookup (Python dict lookup; keys of a
decoded JSON object are unique). -/
def jlookup (k : String) : Kwargs → Option JSON
  | [] => none
  | (k', v) :: rest => if k' = k then some v else jlookup k rest

/-- `x.get(k, d)` where `x` is known to be a dict (after an
`isinstance(x, dict)` check); the non-dict branch is unreachable at every
use site and returns the default. -/
def dget (j : JSON) (k : String) (d : JSON) : JSON :=
  match j with
  | .obj kvs => (jlookup k kvs).getD d
  | _ => d

/-- `kvs.get(k, d)` on the fields of a dict. -/
def recGet (kvs : Kwargs) (k : String) (d : JSON) : JSON :=
  (jlookup k kvs).getD d

/-- `x.get(k, d)` where `x` is an arbitrary value: on a non-dict Python
raises `AttributeError` ('... object has no attribute get'). -/
def pyGet (j : JSON) (k : String) (d : JSON) : Except PyErr JSON :=
  match j with
  | .obj kvs => .ok ((jlookup k kvs).getD d)
  | _ => .error .attributeError

/-- `for x in v`: lists yield their elements, strings their characters,
dicts their keys; other values raise `TypeError`. -/
def pyIterate (j : JSON) : Except PyErr (List JSON) :=
  match j with
  | .arr l => .ok l
  | .str s => .ok (s.data.map fun c => .str (String.mk [c]))
  | .obj kvs => .ok (kvs.map fun kv => .str kv.1)
  | _ => .error .typeError

def JSON.isDict : JSON → Bool
  | .obj _ => true
  | _ => false

def JSON.isList : JSON → Bool
  | .arr _ => true
  | _ => false

/-- The nested-collection comprehension pattern
`[e.get(field, d) for e in items if isinstance(e, dict)]`. -/
def collProject (items : List JSON) (field : String) (d : JSON) : List JSON :=
  (items.filter JSON.isDict).map fun it => dget it field d

/-- `rec.get(coll, [])` followed by the comprehension: the collection value
is iterated, so a non-iterable collection raises. -/
def collectField (kvs : Kwargs) (coll field : String) (d : JSON) :
    Except PyErr (List JSON) := do
  let items ← pyIterate (recGet kvs coll (.arr []))
  .ok (collProject items field d)

/-- The date-span pattern `rec.get(span, {}).get(leg, '')` on a record that
passed the `isinstance(rec, dict)` check (`span` is `aired` for anime,
`published` for manga; `leg` is `from` or `to`). -/
def dateSpan (kvs : Kwargs) (span leg : String) : Except PyErr JSON :=
  pyGet (recGet kvs span (.obj [])) leg (.str "")

/-! ## Pydantic field validation

Each response-model field is `Optional[T] = None`: a missing keyword gives
`None`; `None` is accepted; a value of the declared type is accepted; any
other value raises `ValidationError`. -/

def vOptInt : JSON → Except PyErr (Option Int)
  | .null => .ok none
  | .num n => .ok (some n)
  | _ => .error .validationError

def vOptStr : JSON → Except PyErr (Option String)
  | .null => .ok none
  | .str s => .ok (some s)
  | _ => .error .validationError

def vOptBool : JSON → Except PyErr (Option Bool)
  | .null => .ok none
  | .bool b => .ok (some b)
  | _ => .error .validationError

def vIntElem : JSON → Except PyErr Int
  | .num n => .ok n
  | _ => .error .validationError

def vStrElem : JSON → Except PyErr String
  | .str s => .ok s
  | _ => .error .validationError

def vOptListInt : JSON → Except PyErr (Option (List Int))
  | .null => .ok none
  | .arr l => (l.mapM vIntElem).map some
  | _ => .error .validationError

def vOptListStr : JSON → Except PyErr (Option (List String))
  | .null => .ok none
  | .arr l => (l.mapM vStrElem).map some
  | _ => .error .validationError

def fieldOptInt (kws : Kwargs) (name : String) : Except PyErr (Option Int) :=
  match jlookup name kws with
  | none => .ok none
  | some j => vOptInt j

def fieldOptStr (kws : Kwargs) (name : String) : Except PyErr (Option String) :=
  match jlookup name kws with
  | none => .ok none
  | some j => vOptStr j

def fieldOptBool (kws : Kwargs) (name : String) : Except PyErr (Option Bool) :=
  match jlookup name kws with
  | none => .ok none
  | some j => vOptBool j

def fieldOptListInt (kws : Kwargs) (name : String) :
    Except PyErr (Option (List Int)) :=
  match jlookup name kws with
  | none => .ok none
  | some j => vOptListInt j

def fieldOptListStr (kws : Kwargs) (name : String) :
    Except PyErr (Option (List String)) :=
  match jlookup name kws with
  | none => .ok none
  | some j => vOptListStr j

/-! ## Response models (`src/models/anime_models.py`) -/

/-- `AnimeSearchResponse` of `anime_models.py`.  Field names are exactly the
source's — note `producers_mal_ids` (with the `s`) and `studio_name`
(without the `s`). -/
structure AnimeSearchResponse where
  mal_id : Option Int
  title : Option String
  episodes : Option Int
  status : Option String
  airing : Option Bool
  start_date : Option String
  end_date : Option String
  duration : Option String
  rating : Option String
  score : Option Int
  scored_by : Option Int
  rank : Option Int
  popularity : Option Int
  favorites : Option Int
  synopsis : Option String
  background : Option String
  season : Option String
  year : Option Int
  producers_mal_ids : Option (List Int)
  producer_names : Option (List String)
  studio_ids : Option (List Int)
  studio_name : Option (List String)
  genre_ids : Option (List Int)
  genre_names : Option (List String)
deriving Repr, DecidableEq

/-- The pydantic constructor `AnimeSearchResponse(**kwargs)`: every declared
field is looked up by its own name; unknown keywords are ignored
(`extra='ignore'`). -/
def mkAnimeSearchResponse (kws : Kwargs) : Except PyErr AnimeSearchResponse := do
  let mal_id ← fieldOptInt kws "mal_id"
  let title ← fieldOptStr kws "title"
  let episodes ← fieldOptInt kws "episodes"
  let status ← fieldOptStr kws "status"
  let airing ← fieldOptBool kws "airing"
  let start_date ← fieldOptStr kws "start_date"
  let end_date ← fieldOptStr kws "end_date"
  let duration ← fieldOptStr kws "duration"
  let rating ← fieldOptStr kws "rating"
  let score ← fieldOptInt kws "score"
  let scored_by ← fieldOptInt kws "scored_by"
  let rank ← fieldOptInt kws "rank"
  let popularity ← fieldOptInt kws "popularity"
  let favorites ← fieldOptInt kws "favorites"
  let synopsis ← fieldOptStr kws "synopsis"
  let background ← fieldOptStr kws "background"
  let season ← fieldOptStr kws "season"
  let year ← fieldOptInt kws "year"
  let producers_mal_ids ← fieldOptListInt kws "producers_mal_ids"
  let producer_names ← fieldOptListStr kws "producer_names"
  let studio_ids ← fieldOptListInt kws "studio_ids"
  let studio_name ← fieldOptListStr kws "studio_name"
  let genre_ids ← fieldOptListInt kws "genre_ids"
  let genre_names ← fieldOptListStr kws "genre_names"
  .ok { mal_id, title, episodes, status, airing, start_date, end_date,
        duration, rating, score, scored_by, rank, popularity, favorites,
        synopsis, background, season, year, producers_mal_ids,
        producer_names, studio_ids, studio_name, genre_ids, genre_names }

/-! ## `search_anime` (`anime_related_tools.py`, lines 96-176) -/

/-- The body of the per-record `try` in `search_anime`, for a record that
passed `isinstance(anime, dict)` (fields `kvs`).  The keyword names are the
source's constructor call verbatim — in particular `producer_mal_ids` and
`studio_names`, which match no field of `AnimeSearchResponse`. -/
def search_anime_mapRecord (kvs : Kwargs) : Except PyErr AnimeSearchResponse := do
  let start_date ← dateSpan kvs "aired" "from"
  let end_date ← dateSpan kvs "aired" "to"
  let producer_mal_ids ← collectField kvs "producers" "mal_id" (.num 0)
  let producer_names ← collectField kvs "producers" "name" (.str "")
  let studio_ids ← collectField kvs "studios" "mal_id" (.num 0)
  let studio_names ← collectField kvs "studios" "name" (.str "")
  let genre_ids ← collectField kvs "genres" "mal_id" (.num 0)
  let genre_names ← collectField kvs "genres" "name" (.str "")
  mkAnimeSearchResponse [
    ("mal_id", recGet kvs "mal_id" (.num 0)),
    ("title", recGet kvs "title" (.str "")),
    ("episodes", recGet kvs "episodes" (.num 0)),
    ("status", recGet kvs "status" (.str "")),
    ("airing", recGet kvs "airing" (.bool false)),
    ("start_date", start_date),
    ("end_date", end_date),
    ("duration", recGet kvs "duration" (.str "")),
    ("rating", recGet kvs "rating" (.str "")),
    ("score", recGet kvs "score" (.num 0)),
    ("scored_by", recGet kvs "scored_by" (.num 0)),
    ("rank", recGet kvs "rank" (.num 0)),
    ("popularity", recGet kvs "popularity" (.num 0)),
    ("favorites", recGet kvs "favorites" (.num 0)),
    ("synopsis", recGet kvs "synopsis" (.str "")),
    ("background", recGet kvs "background" (.str "")),
    ("season", recGet kvs "season" (.str "")),
    ("year", recGet kvs "year" (.num 0)),
    ("producer_mal_ids", .arr producer_mal_ids),
    ("producer_names", .arr producer_names),
    ("studio_ids", .arr studio_ids),
    ("studio_names", .arr studio_names),
    ("genre_ids", .arr genre_ids),
    ("genre_names", .arr genre_names)]

/-- The `for idx, anime in enumerate(animelist)` loop of `search_anime`:
a record that is not a dict is skipped with a warning, and any exception
raised while mapping a record is caught and the record skipped. -/
def search_anime_mapData (animelist : List JSON) : List AnimeSearchResponse :=
  animelist.filterMap fun anime =>
    match anime with
    | .obj kvs => (search_anime_mapRecord kvs).toOption
    | _ => none

/-- Errors that abort a whole tool invocation. -/
inductive ToolError where
  /-- `httpx.HTTPStatusError` from `response.raise_for_status()`. -/
  | httpStatusError (code : Nat) : ToolError
  /-- `ValueError` re-raised when `response.json()` fails to decode. -/
  | invalidJSON : ToolError
  /-- `ValueError` raised when `data` has the wrong shape for the tool. -/
  | formatError : ToolError
  /-- An uncaught Python exception propagated by the outer `except`. -/
  | py (e : PyErr) : ToolError
deriving Repr, DecidableEq

/-- The upstream HTTP response as the tool sees it: status code and the
decoded JSON body (`none` when the body is not valid JSON). -/
structure HttpResponse where
  status : Nat
  body : Option JSON

/-- `response.raise_for_status()`: httpx raises `HTTPStatusError` whenever
the status is not a 2xx success. -/
def raiseForStatus (r : HttpResponse) : Except ToolError Unit :=
  if 200 ≤ r.status ∧ r.status < 300 then .ok () else
    .error (.httpStatusError r.status)

/-- `response.json()`, with the `ValueError` branch of the source. -/
def responseJson (r : HttpResponse) : Except ToolError JSON :=
  match r.body with
  | some j => .ok j
  | none => .error .invalidJSON

def liftPy {α : Type} : Except PyErr α → Except ToolError α
  | .ok a => .ok a
  | .error e => .error (.py e)

/-- `search_anime` from `response.raise_for_status()` onward. -/
def search_anime_handle (r : HttpResponse) :
    Except ToolError (List AnimeSearchResponse) := do
  raiseForStatus r
  let response_data ← responseJson r
  let animelist ← liftPy (pyGet response_data "data" (.arr []))
  match animelist with
  | .arr l => .ok (search_anime_mapData l)
  | _ => .error .formatError

/-! ## `get_top_anime` (`anime_related_tools.py`, lines 244-270) -/

/-- `TopAnimeResponse` of `anime_models.py`. -/
structure TopAnimeResponse where
  title : Option String
  type : Option String
  episodes : Option Int
  status : Option String
  rating : Option String
  rank : Option Int
  synopsis : Option String
  season : Option String
  year : Option Int
deriving Repr, DecidableEq

def mkTopAnimeResponse (kws : Kwargs) : Except PyErr TopAnimeResponse := do
  let title ← fieldOptStr kws "title"
  let type ← fieldOptStr kws "type"
  let episodes ← fieldOptInt kws "episodes"
  let status ← fieldOptStr kws "status"
  let rating ← fieldOptStr kws "rating"
  let rank ← fieldOptInt kws "rank"
  let synopsis ← fieldOptStr kws "synopsis"
  let season ← fieldOptStr kws "season"
  let year ← fieldOptInt kws "year"
  .ok { title, type, episodes, status, rating, rank, synopsis, season, year }

/-- One element of the `get_top_anime` list comprehension.  There is no
`isinstance(anime, dict)` check and no per-record `try`, so `anime.get`
on a non-dict raises and the exception propagates. -/
def get_top_anime_mapRecord (anime : JSON) : Except PyErr TopAnimeResponse := do
  let title ← pyGet anime "title_english" (.str "")
  let type ← pyGet anime "type" (.str "")
  let episodes ← pyGet anime "episodes" (.num 0)
  let status ← pyGet anime "status" (.str "")
  let rating ← pyGet anime "rating" (.str "")
  let rank ← pyGet anime "rank" (.num 0)
  let synopsis ← pyGet anime "synopsis" (.str "")
  let season ← pyGet anime "season" (.str "")
  let year ← pyGet anime "year" (.num 0)
  mkTopAnimeResponse [("title", title), ("type", type),
    ("episodes", episodes), ("status", status), ("rating", rating),
    ("rank", rank), ("synopsis", synopsis), ("season", season),
    ("year", year)]

/-- `get_top_anime` from `response.raise_for_status()` onward. -/
def get_top_anime_handle (r : HttpResponse) :
    Except ToolError (List TopAnimeResponse) := do
  raiseForStatus r
  let response_data ← responseJson r
  let animelist ← liftPy (pyGet response_data "data" (.arr []))
  match animelist with
  | .arr l => liftPy (l.mapM get_top_anime_mapRecord)
  | _ => .error .formatError

/-! ## `get_random_anime` (`anime_related_tools.py`, lines 319-345) -/

/-- `RandomAnimeResponse` of `anime_models.py`. -/
structure RandomAnimeResponse where
  title : Option String
  type : Option String
  episodes : Option Int
  status : Option String
  rating : Option String
  rank : Option Int
  synopsis : Option String
  season : Option String
  year : Option Int
deriving Repr, DecidableEq

def mkRandomAnimeResponse (kws : Kwargs) : Except PyErr RandomAnimeResponse := do
  let title ← fieldOptStr kws "title"
  let type ← fieldOptStr kws "type"
  let episodes ← fieldOptInt kws "episodes"
  let status ← fieldOptStr kws "status"
  let rating ← fieldOptStr kws "rating"
  let rank ← fieldOptInt kws "rank"
  let synopsis ← fieldOptStr kws "synopsis"
  let season ← fieldOptStr kws "season"
  let year ← fieldOptInt kws "year"
  .ok { title, type, episodes, status, rating, rank, synopsis, season, year }

/-- Mapping of the single random-anime record, after the
`isinstance(anime, dict)` check (fields `kvs`). -/
def random_anime_mapRecord (kvs : Kwargs) : Except PyErr RandomAnimeResponse :=
  mkRandomAnimeResponse [
    ("title", recGet kvs "title_english" (.str "")),
    ("type", recGet kvs "type" (.str "")),
    ("episodes", recGet kvs "episodes" (.num 0)),
    ("status", recGet kvs "status" (.str "")),
    ("rating", recGet kvs "rating" (.str "")),
    ("rank", recGet kvs "rank" (.num 0)),
    ("synopsis", recGet kvs "synopsis" (.str "")),
    ("season", recGet kvs "season" (.str "")),
    ("year", recGet kvs "year" (.num 0))]

/-- `get_random_anime` from `response.raise_for_status()` onward; note the
`data` default is `{}` and the shape check demands a dict. -/
def get_random_anime_handle (r : HttpResponse) :
    Except ToolError RandomAnimeResponse := do
  raiseForStatus r
  let response_data ← responseJson r
  let anime ← liftPy (pyGet response_data "data" (.obj []))
  match anime with
  | .obj kvs => liftPy (random_anime_mapRecord kvs)
  | _ => .error .formatError

/-! ## Manga response models (`src/models/manga_models.py`) -/

/-- `MangaSearchResponse` of `manga_models.py`. -/
structure MangaSearchResponse where
  mal_id : Option Int
  title : Option String
  volumes : Option Int
  status : Option String
  publishing : Option Bool
  start_date : Option String
  end_date : Option String
  score : Option Int
  scored_by : Option Int
  rank : Option Int
  popularity : Option Int
  favorites : Option Int
  synopsis : Option String
  background : Option String
  authors_mal_ids : Option (List Int)
  authors_names : Option (List String)
  genre_ids : Option (List Int)
  genre_names : Option (List String)
deriving Repr, DecidableEq

def mkMangaSearchResponse (kws : Kwargs) : Except PyErr MangaSearchResponse := do
  let mal_id ← fieldOptInt kws "mal_id"
  let title ← fieldOptStr kws "title"
  let volumes ← fieldOptInt kws "volumes"
  let status ← fieldOptStr kws "status"
  let publishing ← fieldOptBool kws "publishing"
  let start_date ← fieldOptStr kws "start_date"
  let end_date ← fieldOptStr kws "end_date"
  let score ← fieldOptInt kws "score"
  let scored_by ← fieldOptInt kws "scored_by"
  let rank ← fieldOptInt kws "rank"
  let popularity ← fieldOptInt kws "popularity"
  let favorites ← fieldOptInt kws "favorites"
  let synopsis ← fieldOptStr kws "synopsis"
  let background ← fieldOptStr kws "background"
  let authors_mal_ids ← fieldOptListInt kws "authors_mal_ids"
  let authors_names ← fieldOptListStr kws "authors_names"
  let genre_ids ← fieldOptListInt kws "genre_ids"
  let genre_names ← fieldOptListStr kws "genre_names"
  .ok { mal_id, title, volumes, status, publishing, start_date, end_date,
        score, scored_by, rank, popularity, favorites, synopsis, background,
        authors_mal_ids, authors_names, genre_ids, genre_names }

/-- `TopMangaResponse` of `manga_models.py`. -/
structure TopMangaResponse where
  title : Option String
  type : Option String
  volumes : Option Int
  status : Option String
  rank : Option Int
  synopsis : Option String
  season : Option String
  year : Option Int
deriving Repr, DecidableEq

def mkTopMangaResponse (kws : Kwargs) : Except PyErr TopMangaResponse := do
  let title ← fieldOptStr kws "title"
  let type ← fieldOptStr kws "type"
  let volumes ← fieldOptInt kws "volumes"
  let status ← fieldOptStr kws "status"
  let rank ← fieldOptInt kws "rank"
  let synopsis ← fieldOptStr kws "synopsis"
  let season ← fieldOptStr kws "season"
  let year ← fieldOptInt kws "year"
  .ok { title, type, volumes, status, rank, synopsis, season, year }

/-- `RandomMangaResponse` of `manga_models.py`. -/
structure RandomMangaResponse where
  title : Option String
  type : Option String
  volumes : Option Int
  status : Option String
  rank : Option Int
  synopsis : Option String
  season : Option String
  year : Option Int
deriving Repr, DecidableEq

def mkRandomMangaResponse (kws : Kwargs) : Except PyErr RandomMangaResponse := do
  let title ← fieldOptStr kws "title"
  let type ← fieldOptStr kws "type"
  let volumes ← fieldOptInt kws "volumes"
  let status ← fieldOptStr kws "status"
  let rank ← fieldOptInt kws "rank"
  let synopsis ← fieldOptStr kws "synopsis"
  let season ← fieldOptStr kws "season"
  let year ← fieldOptInt kws "year"
  .ok { title, type, volumes, status, rank, synopsis, season, year }

/-! ## `search_manga` (`manga_related_tools.py`, lines 80-129) -/

/-- `dict.get` chains on an unchecked record: `search_manga` builds its
result with a plain list comprehension, so the record is not known to be a
dict and every `.get` can raise `AttributeError`. -/
def uncheckedDateSpan (rec : JSON) (span leg : String) : Except PyErr JSON := do
  let inner ← pyGet rec span (.obj [])
  pyGet inner leg (.str "")

/-- `rec.get(coll, [])` plus the nested comprehension on an unchecked
record. -/
def uncheckedCollect (rec : JSON) (coll field : String) (d : JSON) :
    Except PyErr (List JSON) := do
  let v ← pyGet rec coll (.arr [])
  let items ← pyIterate v
  .ok (collProject items field d)

/-- One element of the `search_manga` list comprehension (no per-record
skip: a failure aborts the whole call). -/
def search_manga_mapRecord (manga : JSON) : Except PyErr MangaSearchResponse := do
  let mal_id ← pyGet manga "mal_id" (.num 0)
  let title ← pyGet manga "title_english" (.str "")
  let volumes ← pyGet manga "volumes" (.num 0)
  let status ← pyGet manga "status" (.str "")
  let publishing ← pyGet manga "publishing" (.bool false)
  let start_date ← uncheckedDateSpan manga "published" "from"
  let end_date ← uncheckedDateSpan manga "published" "to"
  let score ← pyGet manga "score" (.num 0)
  let scored_by ← pyGet manga "scored_by" (.num 0)
  let rank ← pyGet manga "rank" (.num 0)
  let popularity ← pyGet manga "popularity" (.num 0)
  let favorites ← pyGet manga "favorites" (.num 0)
  let synopsis ← pyGet manga "synopsis" (.str "")
  let background ← pyGet manga "background" (.str "")
  let authors_mal_ids ← uncheckedCollect manga "authors" "mal_id" (.num 0)
  let authors_names ← uncheckedCollect manga "authors" "name" (.str "")
  let genre_ids ← uncheckedCollect manga "genres" "mal_id" (.num 0)
  let genre_names ← uncheckedCollect manga "genres" "name" (.str "")
  mkMangaSearchResponse [
    ("mal_id", mal_id), ("title", title), ("volumes", volumes),
    ("status", status), ("publishing", publishing),
    ("start_date", start_date), ("end_date", end_date),
    ("score", score), ("scored_by", scored_by), ("rank", rank),
    ("popularity", popularity), ("favorites", favorites),
    ("synopsis", synopsis), ("background", background),
    ("authors_mal_ids", .arr authors_mal_ids),
    ("authors_names", .arr authors_names),
    ("genre_ids", .arr genre_ids),
    ("genre_names", .arr genre_names)]

/-- `search_manga` from `response.raise_for_status()` onward. -/
def search_manga_handle (r : HttpResponse) :
    Except ToolError (List MangaSearchResponse) := do
  raiseForStatus r
  let response_data ← responseJson r
  let mangalist ← liftPy (pyGet response_data "data" (.arr []))
  match mangalist with
  | .arr l => liftPy (l.mapM search_manga_mapRecord)
  | _ => .error .formatError

/-! ## `get_top_manga` (`manga_related_tools.py`, lines 195-221) -/

/-- One element of the `get_top_manga` list comprehension (no per-record
skip). -/
def get_top_manga_mapRecord (manga : JSON) : Except PyErr TopMangaResponse := do
  let title ← pyGet manga "title_english" (.str "")
  let type ← pyGet manga "type" (.str "")
  let volumes ← pyGet manga "volumes" (.num 0)
  let status ← pyGet manga "status" (.str "")
  let rank ← pyGet manga "rank" (.num 0)
  let synopsis ← pyGet manga "synopsis" (.str "")
  let season ← pyGet manga "season" (.str "")
  let year ← pyGet manga "year" (.num 0)
  mkTopMangaResponse [("title", title), ("type", type),
    ("volumes", volumes), ("status", status), ("rank", rank),
    ("synopsis", synopsis), ("season", season), ("year", year)]

/-- `get_top_manga` from `response.raise_for_status()` onward. -/
def get_top_manga_handle (r : HttpResponse) :
    Except ToolError (List TopMangaResponse) := do
  raiseForStatus r
  let response_data ← responseJson r
  let mangalist ← liftPy (pyGet response_data "data" (.arr []))
  match mangalist with
  | .arr l => liftPy (l.mapM get_top_manga_mapRecord)
  | _ => .error .formatError

/-! ## `get_random_manga` (`manga_related_tools.py`, lines 271-296) -/

/-- Mapping of the single random-manga record, after the
`isinstance(manga, dict)` check (fields `kvs`). -/
def random_manga_mapRecord (kvs : Kwargs) : Except PyErr RandomMangaResponse :=
  mkRandomMangaResponse [
    ("title", recGet kvs "title_english" (.str "")),
    ("type", recGet kvs "type" (.str "")),
    ("volumes", recGet kvs "volumes" (.num 0)),
    ("status", recGet kvs "status" (.str "")),
    ("rank", recGet kvs "rank" (.num 0)),
    ("synopsis", recGet kvs "synopsis" (.str "")),
    ("season", recGet kvs "season" (.str "")),
    ("year", recGet kvs "year" (.num 0))]

/-- `get_random_manga` from `response.raise_for_status()` onward. -/
def get_random_manga_handle (r : HttpResponse) :
    Except ToolError RandomMangaResponse := do
  raiseForStatus r
  let response_data ← responseJson r
  let manga ← liftPy (pyGet response_data "data" (.obj []))
  match manga with
  | .obj kvs => liftPy (random_manga_mapRecord kvs)
  | _ => .error .formatError

/-! ## `get_seasonal_anime` (`anime_related_tools.py`, lines 634-697) -/

/-- `SeasonalAnimeResponse` of `anime_models.py` — here the nested-list
field names are `producers_mal_ids`, `producer_names`, `studio_ids`,
`studio_names`, which all match the constructor keywords used by
`get_seasonal_anime`. -/
structure SeasonalAnimeResponse where
  mal_id : Option Int
  title : Option String
  episodes : Option Int
  status : Option String
  airing : Option Bool
  start_date : Option String
  end_date : Option String
  duration : Option String
  rating : Option String
  score : Option Int
  scored_by : Option Int
  rank : Option Int
  popularity : Option Int
  favorites : Option Int
  synopsis : Option String
  background : Option String
  season : Option String
  year : Option Int
  producers_mal_ids : Option (List Int)
  producer_names : Option (List String)
  studio_ids : Option (List Int)
  studio_names : Option (List String)
  genre_ids : Option (List Int)
  genre_names : Option (List String)
deriving Repr, DecidableEq

def mkSeasonalAnimeResponse (kws : Kwargs) :
    Except PyErr SeasonalAnimeResponse := do
  let mal_id ← fieldOptInt kws "mal_id"
  let title ← fieldOptStr kws "title"
  let episodes ← fieldOptInt kws "episodes"
  let status ← fieldOptStr kws "status"
  let airing ← fieldOptBool kws "airing"
  let start_date ← fieldOptStr kws "start_date"
  let end_date ← fieldOptStr kws "end_date"
  let duration ← fieldOptStr kws "duration"
  let rating ← fieldOptStr kws "rating"
  let score ← fieldOptInt kws "score"
  let scored_by ← fieldOptInt kws "scored_by"
  let rank ← fieldOptInt kws "rank"
  let popularity ← fieldOptInt kws "popularity"
  let favorites ← fieldOptInt kws "favorites"
  let synopsis ← fieldOptStr kws "synopsis"
  let background ← fieldOptStr kws "background"
  let season ← fieldOptStr kws "season"
  let year ← fieldOptInt kws "year"
  let producers_mal_ids ← fieldOptListInt kws "producers_mal_ids"
  let producer_names ← fieldOptListStr kws "producer_names"
  let studio_ids ← fieldOptListInt kws "studio_ids"
  let studio_names ← fieldOptListStr kws "studio_names"
  let genre_ids ← fieldOptListInt kws "genre_ids"
  let genre_names ← fieldOptListStr kws "genre_names"
  .ok { mal_id, title, episodes, status, airing, start_date, end_date,
        duration, rating, score, scored_by, rank, popularity, favorites,
        synopsis, background, season, year, producers_mal_ids,
        producer_names, studio_ids, studio_names, genre_ids, genre_names }

/-- One element of the `get_seasonal_anime` list comprehension (no
per-record skip; record unchecked).  The constructor keywords here match
the `SeasonalAnimeResponse` fields exactly. -/
def seasonal_anime_mapRecord (anime : JSON) :
    Except PyErr SeasonalAnimeResponse := do
  let mal_id ← pyGet anime "mal_id" (.num 0)
  let title ← pyGet anime "title" (.str "")
  let episodes ← pyGet anime "episodes" (.num 0)
  let status ← pyGet anime "status" (.str "")
  let airing ← pyGet anime "airing" (.bool false)
  let start_date ← uncheckedDateSpan anime "aired" "from"
  let end_date ← uncheckedDateSpan anime "aired" "to"
  let duration ← pyGet anime "duration" (.str "")
  let rating ← pyGet anime "rating" (.str "")
  let score ← pyGet anime "score" (.num 0)
  let scored_by ← pyGet anime "scored_by" (.num 0)
  let rank ← pyGet anime "rank" (.num 0)
  let popularity ← pyGet anime "popularity" (.num 0)
  let favorites ← pyGet anime "favorites" (.num 0)
  let synopsis ← pyGet anime "synopsis" (.str "")
  let background ← pyGet anime "background" (.str "")
  let season ← pyGet anime "season" (.str "")
  let year ← pyGet anime "year" (.num 0)
  let producers_mal_ids ← uncheckedCollect anime "producers" "mal_id" (.num 0)
  let producer_names ← uncheckedCollect anime "producers" "name" (.str "")
  let studio_ids ← uncheckedCollect anime "studios" "mal_id" (.num 0)
  let studio_names ← uncheckedCollect anime "studios" "name" (.str "")
  let genre_ids ← uncheckedCollect anime "genres" "mal_id" (.num 0)
  let genre_names ← uncheckedCollect anime "genres" "name" (.str "")
  mkSeasonalAnimeResponse [
    ("mal_id", mal_id), ("title", title), ("episodes", episodes),
    ("status", status), ("airing", airing),
    ("start_date", start_date), ("end_date", end_date),
    ("duration", duration), ("rating", rating), ("score", score),
    ("scored_by", scored_by), ("rank", rank),
    ("popularity", popularity), ("favorites", favorites),
    ("synopsis", synopsis), ("background", background),
    ("season", season), ("year", year),
    ("producers_mal_ids", .arr producers_mal_ids),
    ("producer_names", .arr producer_names),
    ("studio_ids", .arr studio_ids),
    ("studio_names", .arr studio_names),
    ("genre_ids", .arr genre_ids),
    ("genre_names", .arr genre_names)]

/-- `get_seasonal_anime` from `response.raise_for_status()` onward. -/
def get_seasonal_anime_handle (r : HttpResponse) :
    Except ToolError (List SeasonalAnimeResponse) := do
  raiseForStatus r
  let response_data ← responseJson r
  let animelist ← liftPy (pyGet response_data "data" (.arr []))
  match animelist with
  | .arr l => liftPy (l.mapM seasonal_anime_mapRecord)
  | _ => .error .formatError

/-! ## Parameter models and their validation

Tool parameters are pydantic models validated by the MCP framework before
the tool body runs, hence before any HTTP request is issued.  A validator
takes the caller-supplied keywords and either produces the validated
parameter record or raises `ValidationError`.  An `Optional[Literal[...]]`
field accepts `None` and the enumerated strings only; a `Field` with
`ge`/`le` enforces those bounds on a supplied int; a missing keyword takes
the declared default. -/

/-- Validation of one `Optional[Literal[...]] = dflt` field. -/
def vEnumField (allowed : List String) (dflt : Option String)
    (supplied : Option JSON) : Except PyErr (Option String) :=
  match supplied with
  | none => .ok dflt
  | some .null => .ok none
  | some (.str s) => if s ∈ allowed then .ok (some s) else
      .error .validationError
  | some _ => .error .validationError

/-- Validation of one `Optional[int] = Field(dflt, ge=lo, le=hi)` field. -/
def vBoundedIntField (lo hi : Int) (dflt : Option Int)
    (supplied : Option JSON) : Except PyErr (Option Int) :=
  match supplied with
  | none => .ok dflt
  | some .null => .ok none
  | some (.num n) => if lo ≤ n ∧ n ≤ hi then .ok (some n) else
      .error .validationError
  | some _ => .error .validationError

/-- Validation of one `Optional[int] = dflt` field with no declared
bounds. -/
def vFreeIntField (dflt : Option Int) (supplied : Option JSON) :
    Except PyErr (Option Int) :=
  match supplied with
  | none => .ok dflt
  | some .null => .ok none
  | some (.num n) => .ok (some n)
  | some _ => .error .validationError

/-- Validation of one `Optional[str] = None` field. -/
def vOptStrField (supplied : Option JSON) : Except PyErr (Option String) :=
  match supplied with
  | none => .ok none
  | some .null => .ok none
  | some (.str s) => .ok (some s)
  | some _ => .error .validationError

/-- `AnimeSearchParams` of `anime_models.py` (validated form). -/
structure AnimeSearchParams where
  query : String
  limit : Option Int
  status : Option String
  rating : Option String
  order_by : Option String
  sort : Option String
  start_date : Option String
  end_date : Option String
deriving Repr, DecidableEq

/-- Pydantic validation of `AnimeSearchParams`: `query` is required with
`min_length=1`; `limit` is `Field(5, ge=1, le=25)`; the categorical fields
are `Optional[Literal[...]]` with the source's defaults. -/
def validateAnimeSearchParams (kws : Kwargs) :
    Except PyErr AnimeSearchParams := do
  let query ← match jlookup "query" kws with
    | some (.str s) => if 1 ≤ s.length then Except.ok s else
        Except.error .validationError
    | _ => Except.error .validationError
  let lim ← vBoundedIntField 1 25 (some 5) (jlookup "limit" kws)
  let status ← vEnumField ["airing", "complete", "upcoming"] none
    (jlookup "status" kws)
  let rating ← vEnumField ["g", "pg", "pg13", "r17", "r", "rx"] none
    (jlookup "rating" kws)
  let order_by ← vEnumField ["mal_id", "title", "start_date", "end_date",
    "episodes", "score", "rank", "popularity"] (some "popularity")
    (jlookup "order_by" kws)
  let sort ← vEnumField ["desc", "asc"] (some "desc") (jlookup "sort" kws)
  let start_date ← vOptStrField (jlookup "start_date" kws)
  let end_date ← vOptStrField (jlookup "end_date" kws)
  .ok { query, limit := lim, status, rating, order_by, sort,
        start_date, end_date }

/-- One optional entry of a `model_dump(exclude_none=True)` result. -/
def optNumEntry (k : String) (o : Option Int) : Kwargs :=
  match o with
  | some n => [(k, .num n)]
  | none => []

def optStrEntry (k : String) (o : Option String) : Kwargs :=
  match o with
  | some s => [(k, .str s)]
  | none => []

/-- `params.model_dump(exclude_none=True)` for `AnimeSearchParams`: the
outgoing query parameters of `search_anime`.  A field whose value is
`None` is omitted; every other field appears with its value, in field
declaration order. -/
def AnimeSearchParams.dumpExcludeNone (p : AnimeSearchParams) : Kwargs :=
  [("query", .str p.query)]
    ++ optNumEntry "limit" p.limit
    ++ optStrEntry "status" p.status
    ++ optStrEntry "rating" p.rating
    ++ optStrEntry "order_by" p.order_by
    ++ optStrEntry "sort" p.sort
    ++ optStrEntry "start_date" p.start_date
    ++ optStrEntry "end_date" p.end_date

/-- `MangaSearchParams` of `manga_models.py` (validated form). -/
structure MangaSearchParams where
  query : String
  limit : Option Int
  status : Option String
  order_by : Option String
  sort : Option String
  start_date : Option String
  end_date : Option String
deriving Repr, DecidableEq

/-- Pydantic validation of `MangaSearchParams` (`limit` is
`Field(5, ge=1, le=25)`). -/
def validateMangaSearchParams (kws : Kwargs) :
    Except PyErr MangaSearchParams := do
  let query ← match jlookup "query" kws with
    | some (.str s) => if 1 ≤ s.length then Except.ok s else
        Except.error .validationError
    | _ => Except.error .validationError
  let lim ← vBoundedIntField 1 25 (some 5) (jlookup "limit" kws)
  let status ← vEnumField ["airing", "complete", "upcoming"] none
    (jlookup "status" kws)
  let order_by ← vEnumField ["mal_id", "title", "start_date", "end_date",
    "volumes", "score", "rank", "popularity"] (some "popularity")
    (jlookup "order_by" kws)
  let sort ← vEnumField ["desc", "asc"] (some "desc") (jlookup "sort" kws)
  let start_date ← vOptStrField (jlookup "start_date" kws)
  let end_date ← vOptStrField (jlookup "end_date" kws)
  .ok { query, limit := lim, status, order_by, sort, start_date, end_date }

/-- `model_dump(exclude_none=True)` for `MangaSearchParams`: the outgoing
query parameters of `search_manga`. -/
def MangaSearchParams.dumpExcludeNone (p : MangaSearchParams) : Kwargs :=
  [("query", .str p.query)]
    ++ optNumEntry "limit" p.limit
    ++ optStrEntry "status" p.status
    ++ optStrEntry "order_by" p.order_by
    ++ optStrEntry "sort" p.sort
    ++ optStrEntry "start_date" p.start_date
    ++ optStrEntry "end_date" p.end_date

/-- `TopAnimeParams` of `anime_models.py` (validated form). -/
structure TopAnimeParams where
  filter : Option String
  ratings : Option String
  limit : Option Int
deriving Repr, DecidableEq

/-- Pydantic validation of `TopAnimeParams`.  In the source, `limit` is
declared `Optional[int] = 10` with **no** `Field(ge=..., le=...)`
constraint, so any int is accepted. -/
def validateTopAnimeParams (kws : Kwargs) : Except PyErr TopAnimeParams := do
  let fil ← vEnumField ["airing", "upcoming", "bypopularity", "favorite"]
    (some "airing") (jlookup "filter" kws)
  let ratings ← vEnumField ["g", "pg", "pg13", "r17", "r", "rx"] (some "g")
    (jlookup "ratings" kws)
  let lim ← vFreeIntField (some 10) (jlookup "limit" kws)
  .ok { filter := fil, ratings, limit := lim }

/-- `model_dump(exclude_none=True)` for `TopAnimeParams`: the outgoing
query parameters of `get_top_anime`. -/
def TopAnimeParams.dumpExcludeNone (p : TopAnimeParams) : Kwargs :=
  optStrEntry "filter" p.filter
    ++ optStrEntry "ratings" p.ratings
    ++ optNumEntry "limit" p.limit

/-- `TopMangaParams` of `manga_models.py` (validated form). -/
structure TopMangaParams where
  filter : Option String
  ratings : Option String
  limit : Option Int
deriving Repr, DecidableEq

/-- Pydantic validation of `TopMangaParams`.  Here `limit` is
`Field(10, ge=1, le=500)`. -/
def validateTopMangaParams (kws : Kwargs) : Except PyErr TopMangaParams := do
  let fil ← vEnumField ["airing", "upcoming", "bypopularity", "favorite"]
    (some "airing") (jlookup "filter" kws)
  let ratings ← vEnumField ["g", "pg", "pg13", "r17", "r", "rx"] (some "g")
    (jlookup "ratings" kws)
  let lim ← vBoundedIntField 1 500 (some 10) (jlookup "limit" kws)
  .ok { filter := fil, ratings, limit := lim }

/-- `model_dump(exclude_none=True)` for `TopMangaParams`: the outgoing
query parameters of `get_top_manga`. -/
def TopMangaParams.dumpExcludeNone (p : TopMangaParams) : Kwargs :=
  optStrEntry "filter" p.filter
    ++ optStrEntry "ratings" p.ratings
    ++ optNumEntry "limit" p.limit

/-! ## Helper lemmas about keyword lookup -/

theorem jlookup_cons_ne (k k' : String) (v : JSON) (rest : Kwargs)
    (h : ¬k' = k) : jlookup k ((k', v) :: rest) = jlookup k rest := by
  simp [jlookup, h]

theorem jlookup_entryStr_self (k : String) (o : Option String) (b : Kwargs) :
    jlookup k (optStrEntry k o ++ b) =
      match o with
      | some s => some (.str s)
      | none => jlookup k b := by
  cases o <;> simp [optStrEntry, jlookup]

theorem jlookup_entryStr_skip (k k' : String) (o : Option String) (b : Kwargs)
    (h : ¬k' = k) : jlookup k (optStrEntry k' o ++ b) = jlookup k b := by
  cases o <;> simp [optStrEntry, jlookup, h]

theorem jlookup_entryNum_self (k : String) (o : Option Int) (b : Kwargs) :
    jlookup k (optNumEntry k o ++ b) =
      match o with
      | some n => some (.num n)
      | none => jlookup k b := by
  cases o <;> simp [optNumEntry, jlookup]

theorem jlookup_entryNum_skip (k k' : String) (o : Option Int) (b : Kwargs)
    (h : ¬k' = k) : jlookup k (optNumEntry k' o ++ b) = jlookup k b := by
  cases o <;> simp [optNumEntry, jlookup, h]

theorem jlookup_entryStr_last (k : String) (o : Option String) :
    jlookup k (optStrEntry k o) = o.map JSON.str := by
  cases o <;> simp [optStrEntry, jlookup]

theorem jlookup_entryStr_last_skip (k k' : String) (o : Option String)
    (h : ¬k' = k) : jlookup k (optStrEntry k' o) = none := by
  cases o <;> simp [optStrEntry, jlookup, h]

theorem jlookup_entryNum_last (k : String) (o : Option Int) :
    jlookup k (optNumEntry k o) = o.map JSON.num := by
  cases o <;> simp [optNumEntry, jlookup]

theorem jlookup_entryNum_last_skip (k k' : String) (o : Option Int)
    (h : ¬k' = k) : jlookup k (optNumEntry k' o) = none := by
  cases o <;> simp [optNumEntry, jlookup, h]

/-! ## Claims -/

/-- C1, counterexample.  The claim says that for **every** list-returning
tool a non-dict element of `data` is skipped and the remaining records are
still returned.  `get_top_anime` maps its list with a plain comprehension
(no `isinstance` check, no per-record `try`), so the non-dict element
`"oops"` raises `AttributeError` and the whole invocation fails — the
well-formed first element is not returned. -/
theorem C1_top_anime_nondict_fails :
    get_top_anime_handle ⟨200, some (.obj [("data",
        .arr [.obj [("title_english", .str "A")], .str "oops"])])⟩ =
      .error (.py .attributeError) := by rfl

/-- C1, amended: only the anime search tool skips a malformed (non-dict)
element of `data`: its invocation succeeds for any list-shaped `data`, and
dropping the non-dict elements does not change the mapped result (the
remaining well-formed records are all returned, in order).  The other
list-returning tools map with plain comprehensions and fail fatally on a
non-dict element (see the counterexample). -/
theorem C1_search_anime_skips_malformed (s : Nat) (h1 : 200 ≤ s)
    (h2 : s < 300) (l : List JSON) :
    search_anime_handle ⟨s, some (.obj [("data", .arr l)])⟩ =
      .ok (search_anime_mapData l) ∧
    search_anime_mapData l = search_anime_mapData (l.filter JSON.isDict) := by
  constructor
  · simp [search_anime_handle, raiseForStatus, responseJson, pyGet, h1, h2,
      liftPy, Bind.bind, Except.bind, jlookup]
  · induction l with
    | nil => rfl
    | cons x xs ih =>
      cases x
      case obj kvs =>
        simp only [search_anime_mapData, List.filter_cons, JSON.isDict,
          if_true, List.filterMap_cons] at ih ⊢
        cases (search_anime_mapRecord kvs).toOption
        · exact ih
        · exact congrArg _ ih
      all_goals
        simpa only [search_anime_mapData, List.filter_cons, JSON.isDict,
          Bool.false_eq_true, if_false, List.filterMap_cons] using ih

/-- C1, witness for the amended theorem at a concrete input containing one
malformed and one well-formed record. -/
theorem C1_search_anime_skips_malformed_witness :
    search_anime_handle ⟨200, some (.obj [("data",
        .arr [.str "oops", .obj [("mal_id", .num 7)]])])⟩ =
      .ok (search_anime_mapData [.str "oops", .obj [("mal_id", .num 7)]]) ∧
    search_anime_mapData [.str "oops", .obj [("mal_id", .num 7)]] =
      search_anime_mapData
        ([.str "oops", .obj [("mal_id", .num 7)]].filter JSON.isDict) :=
  C1_search_anime_skips_malformed 200 (by decide) (by decide)
    [.str "oops", .obj [("mal_id", .num 7)]]

/-- C2: the claim is right and the code deviates.  In
`TopAnimeParams` the source declares `limit: Optional[int] = 10` with no
`Field(ge=..., le=...)`, so `limit=1000` passes validation and is sent
upstream unchanged — although `get_top_anime`'s own docstring documents
`max: 500`, and the structurally parallel `TopMangaParams` declares
`Field(10, ge=1, le=500)` and rejects the same value, as does
`AnimeSearchParams` with its 1..25 bound.  This theorem evaluates the code
at the failing input and shows the contrast. -/
theorem C2_top_anime_limit_unvalidated :
    validateTopAnimeParams [("limit", .num 1000)] =
      .ok { filter := some "airing", ratings := some "g",
            limit := some 1000 } ∧
    TopAnimeParams.dumpExcludeNone
        { filter := some "airing", ratings := some "g", limit := some 1000 } =
      [("filter", .str "airing"), ("ratings", .str "g"),
       ("limit", .num 1000)] ∧
    validateTopMangaParams [("limit", .num 1000)] =
      .error .validationError ∧
    validateAnimeSearchParams [("query", .str "q"), ("limit", .num 1000)] =
      .error .validationError ∧
    validateTopAnimeParams [("filter", .str "invalid")] =
      .error .validationError := by
  refine ⟨by rfl, by rfl, by rfl, by rfl, by rfl⟩

/-- C3: the claim is right and the code is wrong.  For the given envelope
the mapped record does have `mal_id=16498`, the flattened dates and
`producer_names=["Studio X"]`, but its producer-id list
(`producers_mal_ids`) is `None`, not `[1]`: the `search_anime` constructor
call passes the keyword `producer_mal_ids`, which matches no field of
`AnimeSearchResponse` (the field is `producers_mal_ids`) and is silently
ignored by pydantic — likewise keyword `studio_names` vs field
`studio_name`.  The tool's docstring documents a returned producer-id
list, and `get_seasonal_anime` spells the same keyword correctly. -/
theorem C3_producer_ids_dropped :
    search_anime_handle ⟨200, some (.obj [("data", .arr [.obj [
        ("mal_id", .num 16498), ("title", .str "Attack on Titan"),
        ("episodes", .num 25),
        ("aired", .obj [("from", .str "2013-04-07"),
                        ("to", .str "2013-09-29")]),
        ("producers", .arr [.obj [("mal_id", .num 1),
                                  ("name", .str "Studio X")]])]])])⟩ =
      .ok [{ mal_id := some 16498, title := some "Attack on Titan",
             episodes := some 25, status := some "", airing := some false,
             start_date := some "2013-04-07", end_date := some "2013-09-29",
             duration := some "", rating := some "", score := some 0,
             scored_by := some 0, rank := some 0, popularity := some 0,
             favorites := some 0, synopsis := some "", background := some "",
             season := some "", year := some 0,
             producers_mal_ids := none,
             producer_names := some ["Studio X"],
             studio_ids := some [], studio_name := none,
             genre_ids := some [], genre_names := some [] }] := by rfl

/-- C4: in every nested-collection projection the id list and the name
list are images of the same `isinstance`-filtered sublist: they always
have equal length, removing a non-dict element from the collection changes
neither list (lockstep exclusion, order preserved), and on the spec's
concrete collection the lists are `[2, 3]` and `["B", "C"]` — also
end-to-end through the anime-search genre fields and the manga-search
author fields. -/
theorem C4_parallel_lists_alignment :
    (∀ items : List JSON,
        (collProject items "mal_id" (.num 0)).length =
          (collProject items "name" (.str "")).length) ∧
    (∀ (field : String) (d : JSON) (pre post : List JSON) (x : JSON),
        x.isDict = false →
        collProject (pre ++ x :: post) field d =
          collProject (pre ++ post) field d) ∧
    collProject [.obj [("mal_id", .num 2), ("name", .str "B")],
        .str "not-an-object",
        .obj [("mal_id", .num 3), ("name", .str "C")]] "mal_id" (.num 0) =
      [.num 2, .num 3] ∧
    collProject [.obj [("mal_id", .num 2), ("name", .str "B")],
        .str "not-an-object",
        .obj [("mal_id", .num 3), ("name", .str "C")]] "name" (.str "") =
      [.str "B", .str "C"] ∧
    (search_anime_mapData [.obj [("genres",
        .arr [.obj [("mal_id", .num 2), ("name", .str "B")],
              .str "not-an-object",
              .obj [("mal_id", .num 3), ("name", .str "C")]])]]).map
        (fun r => (r.genre_ids, r.genre_names)) =
      [(some [2, 3], some ["B", "C"])] ∧
    ((search_manga_mapRecord (.obj [("authors",
        .arr [.obj [("mal_id", .num 2), ("name", .str "B")],
              .str "not-an-object",
              .obj [("mal_id", .num 3), ("name", .str "C")]])])).toOption.map
        (fun r => (r.authors_mal_ids, r.authors_names))) =
      some (some [2, 3], some ["B", "C"]) := by
  refine ⟨?_, ?_, by rfl, by rfl, by rfl, by rfl⟩
  · intro items
    simp [collProject]
  · intro field d pre post x hx
    simp [collProject, List.filter_append, List.filter_cons, hx]

/-- C4, witness: lockstep exclusion applied at a concrete non-dict
element. -/
theorem C4_parallel_lists_alignment_witness :
    collProject ([] ++ .str "not-an-object" :: []) "mal_id" (.num 0) =
      collProject ([] ++ []) "mal_id" (.num 0) :=
  C4_parallel_lists_alignment.2.1 "mal_id" (.num 0) [] []
    (.str "not-an-object") rfl

/-- C5: when the envelope's `data` key is present with the wrong shape —
an object where the tool maps a list of records, or a list where the tool
maps a single record — the invocation raises the response-format
`ValueError` and returns no partial result. -/
theorem C5_data_shape_mismatch_fatal (s : Nat) (h1 : 200 ≤ s) (h2 : s < 300)
    (kvs : Kwargs) (v : JSON) (hdata : jlookup "data" kvs = some v) :
    (v.isDict = true →
        search_anime_handle ⟨s, some (.obj kvs)⟩ = .error .formatError ∧
        get_top_anime_handle ⟨s, some (.obj kvs)⟩ = .error .formatError ∧
        get_top_manga_handle ⟨s, some (.obj kvs)⟩ = .error .formatError ∧
        search_manga_handle ⟨s, some (.obj kvs)⟩ = .error .formatError ∧
        get_seasonal_anime_handle ⟨s, some (.obj kvs)⟩ =
          .error .formatError) ∧
    (v.isList = true →
        get_random_anime_handle ⟨s, some (.obj kvs)⟩ = .error .formatError ∧
        get_random_manga_handle ⟨s, some (.obj kvs)⟩ =
          .error .formatError) := by
  constructor
  · intro hv
    cases v
    case obj kvs2 =>
      refine ⟨?_, ?_, ?_, ?_, ?_⟩ <;>
        simp [search_anime_handle, get_top_anime_handle, get_top_manga_handle,
          search_manga_handle, get_seasonal_anime_handle, raiseForStatus,
          responseJson, pyGet, hdata, h1, h2, liftPy, Bind.bind, Except.bind]
    all_goals simp [JSON.isDict] at hv
  · intro hv
    cases v
    case arr items =>
      refine ⟨?_, ?_⟩ <;>
        simp [get_random_anime_handle, get_random_manga_handle,
          raiseForStatus, responseJson, pyGet, hdata, h1, h2, liftPy,
          Bind.bind, Except.bind]
    all_goals simp [JSON.isList] at hv

/-- C5, witness: `data` an object for the anime search (list) tool. -/
theorem C5_data_shape_mismatch_fatal_witness :
    search_anime_handle ⟨200, some (.obj [("data", .obj [])])⟩ =
      .error .formatError :=
  ((C5_data_shape_mismatch_fatal 200 (by decide) (by decide)
    [("data", .obj [])] (.obj []) rfl).1 rfl).1

/-- C6: every modelled tool calls `response.raise_for_status()` before
decoding or mapping anything, so a non-2xx upstream status makes the
invocation fail with an `HTTPStatusError` carrying that numeric status
code, and no record is mapped. -/
theorem C6_non2xx_raises_status_error (r : HttpResponse)
    (h : r.status < 200 ∨ 300 ≤ r.status) :
    search_anime_handle r = .error (.httpStatusError r.status) ∧
    get_top_anime_handle r = .error (.httpStatusError r.status) ∧
    get_random_anime_handle r = .error (.httpStatusError r.status) ∧
    search_manga_handle r = .error (.httpStatusError r.status) ∧
    get_top_manga_handle r = .error (.httpStatusError r.status) ∧
    get_random_manga_handle r = .error (.httpStatusError r.status) ∧
    get_seasonal_anime_handle r = .error (.httpStatusError r.status) := by
  have hc : ¬(200 ≤ r.status ∧ r.status < 300) := by omega
  refine ⟨?_, ?_, ?_, ?_, ?_, ?_, ?_⟩ <;>
    simp [search_anime_handle, get_top_anime_handle, get_random_anime_handle,
      search_manga_handle, get_top_manga_handle, get_random_manga_handle,
      get_seasonal_anime_handle, raiseForStatus, hc, Bind.bind, Except.bind]

/-- C6, witness at upstream status 500. -/
theorem C6_non2xx_raises_status_error_witness :
    search_anime_handle ⟨500, some (.obj [])⟩ =
      .error (.httpStatusError 500) :=
  (C6_non2xx_raises_status_error ⟨500, some (.obj [])⟩ (by decide)).1

/-- C7: the date-span flattening `rec.get(span, {}).get(leg, '')` yields
the empty-string default whenever the span sub-object (`aired` /
`published`) is entirely absent, and whenever it is present but the
`from`/`to` leg is absent; no error is raised.  Shown generally at the
span level (for both the checked and the unchecked variant used by the
comprehension tools) and end-to-end on anime-search, manga-search and
seasonal records. -/
theorem C7_date_span_empty_default :
    (∀ (kvs : Kwargs) (span leg : String), jlookup span kvs = none →
        dateSpan kvs span leg = .ok (.str "")) ∧
    (∀ (kvs spanKvs : Kwargs) (span leg : String),
        jlookup span kvs = some (.obj spanKvs) →
        jlookup leg spanKvs = none →
        dateSpan kvs span leg = .ok (.str "")) ∧
    (∀ (kvs : Kwargs) (span leg : String),
        uncheckedDateSpan (.obj kvs) span leg = dateSpan kvs span leg) ∧
    (search_anime_mapData [.obj []]).map
        (fun r => (r.start_date, r.end_date)) = [(some "", some "")] ∧
    ((search_manga_mapRecord (.obj [])).toOption.map
        (fun r => (r.start_date, r.end_date))) = some (some "", some "") ∧
    ((seasonal_anime_mapRecord (.obj [])).toOption.map
        (fun r => (r.start_date, r.end_date))) = some (some "", some "") ∧
    (search_anime_mapData
        [.obj [("aired", .obj [("from", .str "2013-04-07")])]]).map
        (fun r => (r.start_date, r.end_date)) =
      [(some "2013-04-07", some "")] := by
  refine ⟨?_, ?_, ?_, by rfl, by rfl, by rfl, by rfl⟩
  · intro kvs span leg h
    simp [dateSpan, recGet, pyGet, h, jlookup]
  · intro kvs spanKvs span leg hspan hleg
    simp [dateSpan, recGet, pyGet, hspan, hleg]
  · intro kvs span leg
    rfl

/-- C7, witness: a record with no `aired` key at all. -/
theorem C7_date_span_empty_default_witness :
    dateSpan [] "aired" "from" = .ok (.str "") :=
  C7_date_span_empty_default.1 [] "aired" "from" rfl

/-- C8, counterexample.  The claim says a field that is *unset or None*
never appears in the outgoing query parameters.  `model_dump` with
`exclude_none=True` only drops `None`-valued fields: calling the anime
search with only `query` supplied (so `limit`, `order_by` and `sort` are
unset) still produces an outgoing `limit=5` entry, because the unset
field took its non-None declared default `5`. -/
theorem C8_unset_default_field_sent :
    validateAnimeSearchParams [("query", .str "naruto")] =
      .ok { query := "naruto", limit := some 5, status := none,
            rating := none, order_by := some "popularity",
            sort := some "desc", start_date := none, end_date := none } ∧
    jlookup "limit" (AnimeSearchParams.dumpExcludeNone
        { query := "naruto", limit := some 5, status := none,
          rating := none, order_by := some "popularity",
          sort := some "desc", start_date := none, end_date := none }) =
      some (.num 5) ∧
    jlookup "limit" [("query", .str "naruto")] = none := by
  refine ⟨by rfl, by rfl, by rfl⟩

/-- C8, amended: the outgoing query mapping of each parameter model
contains a key exactly when the validated field's value is not `None`, and
then with exactly that value (never an empty string or null in its
place); a `None`-valued field — unset with a `None` default, or explicitly
`None` — is excluded entirely.  A field left unset whose declared default
is not `None` is sent with that default. -/
theorem C8_exclude_none_characterisation :
    (∀ p : AnimeSearchParams,
        jlookup "query" p.dumpExcludeNone = some (.str p.query) ∧
        jlookup "limit" p.dumpExcludeNone = p.limit.map JSON.num ∧
        jlookup "status" p.dumpExcludeNone = p.status.map JSON.str ∧
        jlookup "rating" p.dumpExcludeNone = p.rating.map JSON.str ∧
        jlookup "order_by" p.dumpExcludeNone = p.order_by.map JSON.str ∧
        jlookup "sort" p.dumpExcludeNone = p.sort.map JSON.str ∧
        jlookup "start_date" p.dumpExcludeNone = p.start_date.map JSON.str ∧
        jlookup "end_date" p.dumpExcludeNone = p.end_date.map JSON.str) ∧
    (∀ p : MangaSearchParams,
        jlookup "query" p.dumpExcludeNone = some (.str p.query) ∧
        jlookup "limit" p.dumpExcludeNone = p.limit.map JSON.num ∧
        jlookup "status" p.dumpExcludeNone = p.status.map JSON.str ∧
        jlookup "order_by" p.dumpExcludeNone = p.order_by.map JSON.str ∧
        jlookup "sort" p.dumpExcludeNone = p.sort.map JSON.str ∧
        jlookup "start_date" p.dumpExcludeNone = p.start_date.map JSON.str ∧
        jlookup "end_date" p.dumpExcludeNone = p.end_date.map JSON.str) ∧
    (∀ p : TopAnimeParams,
        jlookup "filter" p.dumpExcludeNone = p.filter.map JSON.str ∧
        jlookup "ratings" p.dumpExcludeNone = p.ratings.map JSON.str ∧
        jlookup "limit" p.dumpExcludeNone = p.limit.map JSON.num) ∧
    (∀ p : TopMangaParams,
        jlookup "filter" p.dumpExcludeNone = p.filter.map JSON.str ∧
        jlookup "ratings" p.dumpExcludeNone = p.ratings.map JSON.str ∧
        jlookup "limit" p.dumpExcludeNone = p.limit.map JSON.num) := by
  refine ⟨?_, ?_, ?_, ?_⟩
  · intro p
    refine ⟨by simp [AnimeSearchParams.dumpExcludeNone, jlookup],
      ?_, ?_, ?_, ?_, ?_, ?_, ?_⟩ <;>
      simp only [AnimeSearchParams.dumpExcludeNone, List.append_assoc,
        List.cons_append, List.nil_append]
    · cases p.limit <;>
        simp [jlookup, jlookup_entryStr_skip, jlookup_entryNum_skip,
          jlookup_entryStr_self, jlookup_entryNum_self,
          jlookup_entryStr_last, jlookup_entryStr_last_skip]
    · cases p.status <;>
        simp [jlookup, jlookup_entryStr_skip, jlookup_entryNum_skip,
          jlookup_entryStr_self, jlookup_entryNum_self,
          jlookup_entryStr_last, jlookup_entryStr_last_skip]
    · cases p.rating <;>
        simp [jlookup, jlookup_entryStr_skip, jlookup_entryNum_skip,
          jlookup_entryStr_self, jlookup_entryNum_self,
          jlookup_entryStr_last, jlookup_entryStr_last_skip]
    · cases p.order_by <;>
        simp [jlookup, jlookup_entryStr_skip, jlookup_entryNum_skip,
          jlookup_entryStr_self, jlookup_entryNum_self,
          jlookup_entryStr_last, jlookup_entryStr_last_skip]
    · cases p.sort <;>
        simp [jlookup, jlookup_entryStr_skip, jlookup_entryNum_skip,
          jlookup_entryStr_self, jlookup_entryNum_self,
          jlookup_entryStr_last, jlookup_entryStr_last_skip]
    · cases p.start_date <;>
        simp [jlookup, jlookup_entryStr_skip, jlookup_entryNum_skip,
          jlookup_entryStr_self, jlookup_entryNum_self,
          jlookup_entryStr_last, jlookup_entryStr_last_skip]
    · cases p.end_date <;>
        simp [jlookup, jlookup_entryStr_skip, jlookup_entryNum_skip,
          jlookup_entryStr_self, jlookup_entryNum_self,
          jlookup_entryStr_last, jlookup_entryStr_last_skip]
  · intro p
    refine ⟨by simp [MangaSearchParams.dumpExcludeNone, jlookup],
      ?_, ?_, ?_, ?_, ?_, ?_⟩ <;>
      simp only [MangaSearchParams.dumpExcludeNone, List.append_assoc,
        List.cons_append, List.nil_append]
    · cases p.limit <;>
        simp [jlookup, jlookup_entryStr_skip, jlookup_entryNum_skip,
          jlookup_entryStr_self, jlookup_entryNum_self,
          jlookup_entryStr_last, jlookup_entryStr_last_skip]
    · cases p.status <;>
        simp [jlookup, jlookup_entryStr_skip, jlookup_entryNum_skip,
          jlookup_entryStr_self, jlookup_entryNum_self,
          jlookup_entryStr_last, jlookup_entryStr_last_skip]
    · cases p.order_by <;>
        simp [jlookup, jlookup_entryStr_skip, jlookup_entryNum_skip,
          jlookup_entryStr_self, jlookup_entryNum_self,
          jlookup_entryStr_last, jlookup_entryStr_last_skip]
    · cases p.sort <;>
        simp [jlookup, jlookup_entryStr_skip, jlookup_entryNum_skip,
          jlookup_entryStr_self, jlookup_entryNum_self,
          jlookup_entryStr_last, jlookup_entryStr_last_skip]
    · cases p.start_date <;>
        simp [jlookup, jlookup_entryStr_skip, jlookup_entryNum_skip,
          jlookup_entryStr_self, jlookup_entryNum_self,
          jlookup_entryStr_last, jlookup_entryStr_last_skip]
    · cases p.end_date <;>
        simp [jlookup, jlookup_entryStr_skip, jlookup_entryNum_skip,
          jlookup_entryStr_self, jlookup_entryNum_self,
          jlookup_entryStr_last, jlookup_entryStr_last_skip]
  · intro p
    refine ⟨?_, ?_, ?_⟩ <;>
      simp only [TopAnimeParams.dumpExcludeNone, List.append_assoc,
        List.cons_append, List.nil_append]
    · cases p.filter <;>
        simp [jlookup, jlookup_entryStr_skip, jlookup_entryNum_skip,
          jlookup_entryStr_self, jlookup_entryNum_self,
          jlookup_entryNum_last, jlookup_entryNum_last_skip]
    · cases p.ratings <;>
        simp [jlookup, jlookup_entryStr_skip, jlookup_entryNum_skip,
          jlookup_entryStr_self, jlookup_entryNum_self,
          jlookup_entryNum_last, jlookup_entryNum_last_skip]
    · cases p.limit <;>
        simp [jlookup, jlookup_entryStr_skip, jlookup_entryNum_skip,
          jlookup_entryStr_self, jlookup_entryNum_self,
          jlookup_entryNum_last, jlookup_entryNum_last_skip]
  · intro p
    refine ⟨?_, ?_, ?_⟩ <;>
      simp only [TopMangaParams.dumpExcludeNone, List.append_assoc,
        List.cons_append, List.nil_append]
    · cases p.filter <;>
        simp [jlookup, jlookup_entryStr_skip, jlookup_entryNum_skip,
          jlookup_entryStr_self, jlookup_entryNum_self,
          jlookup_entryNum_last, jlookup_entryNum_last_skip]
    · cases p.ratings <;>
        simp [jlookup, jlookup_entryStr_skip, jlookup_entryNum_skip,
          jlookup_entryStr_self, jlookup_entryNum_self,
          jlookup_entryNum_last, jlookup_entryNum_last_skip]
    · cases p.limit <;>
        simp [jlookup, jlookup_entryStr_skip, jlookup_entryNum_skip,
          jlookup_entryStr_self, jlookup_entryNum_self,
          jlookup_entryNum_last, jlookup_entryNum_last_skip]

/-- C9, counterexample.  The claim says every field of an accepted mapped
record holds its literal default even when the source value is malformed,
naming a field present with a null value.  `dict.get(key, default)`
returns a stored `None` (the default is used only when the key is
absent), and pydantic accepts `None` for every `Optional` field — so a
record with `"score": null` maps to `score=None`, not to the literal
default `0.0`. -/
theorem C9_null_field_not_defaulted :
    (search_anime_mapData [.obj [("score", .null)]]).map (fun r => r.score) =
      [none] ∧
    (search_anime_mapData [.obj [("score", .null)]]).map (fun r => r.score) ≠
      [some 0] := by
  refine ⟨by rfl, by decide⟩

/-- C9, amended: a field whose key is **absent** from the source record is
populated with its literal default (`0`, empty string, `false`, `0.0`,
empty list) — except the anime-search producer-id and studio-name fields
(`producers_mal_ids`, `studio_name`), which remain `None` even then
because `search_anime`'s constructor keywords `producer_mal_ids` /
`studio_names` are misspelled and silently ignored (the C3 bug); a key
present with a null value yields a `None` field rather than the default;
and a key whose value fails type validation makes the record's mapping
fail (the record is skipped by the anime search tool and fatal in the
comprehension-style tools) rather than being defaulted.  Shown field by
field on both the anime-search mapper (the two `None` exceptions
included) and the seasonal mapper, whose keywords all match the model. -/
theorem C9_absent_defaults_null_kept_invalid_fails :
    search_anime_mapData [.obj []] =
      [{ mal_id := some 0, title := some "", episodes := some 0,
         status := some "", airing := some false, start_date := some "",
         end_date := some "", duration := some "", rating := some "",
         score := some 0, scored_by := some 0, rank := some 0,
         popularity := some 0, favorites := some 0, synopsis := some "",
         background := some "", season := some "", year := some 0,
         producers_mal_ids := none, producer_names := some [],
         studio_ids := some [], studio_name := none,
         genre_ids := some [], genre_names := some [] }] ∧
    seasonal_anime_mapRecord (.obj []) =
      .ok { mal_id := some 0, title := some "", episodes := some 0,
            status := some "", airing := some false, start_date := some "",
            end_date := some "", duration := some "", rating := some "",
            score := some 0, scored_by := some 0, rank := some 0,
            popularity := some 0, favorites := some 0, synopsis := some "",
            background := some "", season := some "", year := some 0,
            producers_mal_ids := some [], producer_names := some [],
            studio_ids := some [], studio_names := some [],
            genre_ids := some [], genre_names := some [] } ∧
    ((seasonal_anime_mapRecord (.obj [("score", .null)])).toOption.map
        (fun r => r.score)) = some none ∧
    seasonal_anime_mapRecord (.obj [("score", .str "x")]) =
      .error .validationError ∧
    search_anime_mapData [.obj [("score", .str "x")]] = [] := by
  refine ⟨by rfl, by rfl, by rfl, by rfl, by rfl⟩

/-- C10: a valid-JSON envelope with no `data` key at all makes every
list-returning tool succeed with the empty list (the `data` default is
`[]`, which passes the shape check and maps to nothing), and each
single-record tool succeed with a record whose every field holds its
literal default (the `data` default is `{}`). -/
theorem C10_missing_data_key_defaults (s : Nat) (h1 : 200 ≤ s)
    (h2 : s < 300) (kvs : Kwargs) (hdata : jlookup "data" kvs = none) :
    search_anime_handle ⟨s, some (.obj kvs)⟩ = .ok [] ∧
    get_top_anime_handle ⟨s, some (.obj kvs)⟩ = .ok [] ∧
    get_top_manga_handle ⟨s, some (.obj kvs)⟩ = .ok [] ∧
    search_manga_handle ⟨s, some (.obj kvs)⟩ = .ok [] ∧
    get_seasonal_anime_handle ⟨s, some (.obj kvs)⟩ = .ok [] ∧
    get_random_anime_handle ⟨s, some (.obj kvs)⟩ =
      .ok { title := some "", type := some "", episodes := some 0,
            status := some "", rating := some "", rank := some 0,
            synopsis := some "", season := some "", year := some 0 } ∧
    get_random_manga_handle ⟨s, some (.obj kvs)⟩ =
      .ok { title := some "", type := some "", volumes := some 0,
            status := some "", rank := some 0, synopsis := some "",
            season := some "", year := some 0 } := by
  refine ⟨?_, ?_, ?_, ?_, ?_, ?_, ?_⟩ <;>
    simp [search_anime_handle, get_top_anime_handle, get_top_manga_handle,
      search_manga_handle, get_seasonal_anime_handle,
      get_random_anime_handle, get_random_manga_handle, raiseForStatus,
      responseJson, pyGet, hdata, h1, h2, liftPy, Bind.bind, Except.bind,
      search_anime_mapData] <;>
    rfl

/-- C10, witness at the empty envelope `{}`. -/
theorem C10_missing_data_key_defaults_witness :
    search_anime_handle ⟨200, some (.obj [])⟩ = .ok [] ∧
    get_random_anime_handle ⟨200, some (.obj [])⟩ =
      .ok { title := some "", type := some "", episodes := some 0,
            status := some "", rating := some "", rank := some 0,
            synopsis := some "", season := some "", year := some 0 } :=
  ⟨(C10_missing_data_key_defaults 200 (by decide) (by decide) [] rfl).1,
   (C10_missing_data_key_defaults 200 (by decide) (by decide) [] rfl).2.2.2.2.2.1⟩
